import Mathlib

/-!
Verification of the core algorithmic modules of the Notte chat-bot suite:
the gacha ("summon") simulator (`src/bot_modules/summon_sim.py`) and the
fuzzy query resolver (`src/bot_modules/query.py`).

Python floats are modelled as exact rationals (`ℚ`); Python's float `//`
and `%` are modelled via `Int.floor` (`x // y = ⌊x / y⌋`,
`x % y = x - y * ⌊x / y⌋`, which matches CPython float semantics for a
positive divisor).  Python exceptions are modelled with `Except PyErr`.
The two random primitives used by the simulator (`random.choices`,
`random.choice`) are modelled deterministically with explicit oracle
inputs: a rational sample point `u` standing for `random.random() * total`
and a natural index `j` standing for the uniform index choice.
-/

/-! ## Definitions -/

/-- Python exception kinds that the modelled code can raise. -/
inductive PyErr
  | valueError
  | indexError
  | keyError
  | zeroDivisionError
deriving DecidableEq

/-- The two entity categories a banner pool distinguishes
(`data.Adventurer` / `data.Dragon` in the source). -/
inductive EntityKind
  | adventurer
  | dragon
deriving DecidableEq

/-- The slice of `data.Adventurer` / `data.Dragon` that `summon_sim.py`
reads: `rarity` (may be `None` in the source, hence `Option`),
`availability`, and its category.  `id` distinguishes entities. -/
structure Entity where
  kind : EntityKind
  rarity : Option ℕ
  availability : String
  id : ℕ
deriving DecidableEq

instance : Inhabited Entity := ⟨⟨EntityKind.adventurer, none, "", 0⟩⟩

/-- One rarity level of `Banner.entity_pools`: the `"f"` (featured) and
`"n"` (normal) buckets, each split by entity category.  Iteration order in
the source dict is `"f"` before `"n"`, `Adventurer` before `Dragon`. -/
structure RarityPools where
  fAdv : List Entity
  fDrg : List Entity
  nAdv : List Entity
  nDrg : List Entity
deriving DecidableEq

/-- A `Banner`: premium ("gala") flag plus `entity_pools`, whose rarity
keys run over `range(3, 6)`, i.e. rarities 3, 4 and 5. -/
structure Banner where
  is_gala : Bool
  pool3 : RarityPools
  pool4 : RarityPools
  pool5 : RarityPools
deriving DecidableEq

/-- `Banner([])` when no entity is permanently available: every pool is
empty and `is_gala = any [] = False`. -/
def Banner.empty : Banner :=
  ⟨false, ⟨[], [], [], []⟩, ⟨[], [], [], []⟩, ⟨[], [], [], []⟩⟩

/-- One rarity level of a rate table (`rates[r]` in the source):
weights for the featured/normal buckets split by category. -/
structure RarityRates where
  fAdv : ℚ
  fDrg : ℚ
  nAdv : ℚ
  nDrg : ℚ
deriving DecidableEq

/-- Sum of the four weights of one rarity level, in the source's order
`sum(rarity_rates["f"].values()) + sum(rarity_rates["n"].values())`. -/
def RarityRates.total (rr : RarityRates) : ℚ :=
  (rr.fAdv + rr.fDrg) + (rr.nAdv + rr.nDrg)

/-- Scale all four weights of a rarity level by `s` (the in-place
`type_pool[e_type] *= rate_scale` loop of `set_rarity_rate`). -/
def RarityRates.scale (rr : RarityRates) (s : ℚ) : RarityRates :=
  ⟨rr.fAdv * s, rr.fDrg * s, rr.nAdv * s, rr.nDrg * s⟩

/-- The full 3-level rate table `rates[rarity][bucket][category]`. -/
structure RateTable where
  r3 : RarityRates
  r4 : RarityRates
  r5 : RarityRates
deriving DecidableEq

/-- The weights in the flattening order of `Banner._get_result`:
rarity 3, 4, 5; within a rarity `"f"` then `"n"`; within a bucket
`Adventurer` then `Dragon`. -/
def RateTable.flattenWeights (t : RateTable) : List ℚ :=
  [t.r3.fAdv, t.r3.fDrg, t.r3.nAdv, t.r3.nDrg,
   t.r4.fAdv, t.r4.fDrg, t.r4.nAdv, t.r4.nDrg,
   t.r5.fAdv, t.r5.fDrg, t.r5.nAdv, t.r5.nDrg]

/-- The entity pools in the same flattening order as the weights. -/
def Banner.flattenPools (b : Banner) : List (List Entity) :=
  [b.pool3.fAdv, b.pool3.fDrg, b.pool3.nAdv, b.pool3.nDrg,
   b.pool4.fAdv, b.pool4.fDrg, b.pool4.nAdv, b.pool4.nDrg,
   b.pool5.fAdv, b.pool5.fDrg, b.pool5.nAdv, b.pool5.nDrg]

/-- `Banner.get_pool_rates(self, pity)`, translated weight for weight
from the source (decimal constants are the exact rationals the source
writes). -/
def Banner.get_pool_rates (b : Banner) (pity : ℚ) : RateTable :=
  -- 5* rates
  let base_5_rate : ℚ := if b.is_gala then 6 else 4
  let total_5_rate := base_5_rate + pity
  let rate_multi_5 := total_5_rate / base_5_rate
  let featured_5_adv_count : ℚ := b.pool5.fAdv.length
  let featured_5_drg_count : ℚ := b.pool5.fDrg.length
  let r5fAdv := rate_multi_5 * 0.5 * featured_5_adv_count
  let r5fDrg := rate_multi_5 * 0.8 * featured_5_drg_count
  let r5 : RarityRates :=
    ⟨r5fAdv, r5fDrg, total_5_rate / 2 - r5fAdv, total_5_rate / 2 - r5fDrg⟩
  -- 4* rates
  let featured_4_adv_count : ℕ := b.pool4.fAdv.length
  let featured_4_drg_count : ℕ := b.pool4.fDrg.length
  let featured_4_total_count := featured_4_adv_count + featured_4_drg_count
  let r4 : RarityRates :=
    if featured_4_total_count ≠ 0 then
      ⟨7 * featured_4_adv_count / featured_4_total_count,
       7 * featured_4_drg_count / featured_4_total_count,
       5.05, 3.95⟩
    else
      ⟨0, 0, 8.55, 7.45⟩
  -- 3* rates
  let normal_3_rate_split : ℚ := 80 - pity
  let offset_3_rate : ℚ := if b.is_gala then -1 else 0
  let r3fAdv : ℚ := 4 * (b.pool3.fAdv.length : ℚ)
  let r3fDrg : ℚ := 4 * (b.pool3.fDrg.length : ℚ)
  let r3 : RarityRates :=
    ⟨r3fAdv, r3fDrg,
     0.6 * normal_3_rate_split - r3fAdv + offset_3_rate,
     0.4 * normal_3_rate_split - r3fDrg + offset_3_rate⟩
  ⟨r3, r4, r5⟩

/-- `Banner.is_pity_rate_capped(self, pity)`. -/
def Banner.is_pity_rate_capped (b : Banner) (pity : ℚ) : Bool :=
  decide ((if b.is_gala then (3 : ℚ) else 5) ≤ pity)

/-- `set_rarity_rate(rarity_rates, new_rate)`: scales one rarity level to
a new total and returns the old total.  `new_rate / old_rate` raises
`ZeroDivisionError` in Python when the old total is zero. -/
def set_rarity_rate (rarity_rates : RarityRates) (new_rate : ℚ) :
    Except PyErr (RarityRates × ℚ) :=
  let old_rate := rarity_rates.total
  if old_rate = 0 then .error .zeroDivisionError
  else
    let rate_scale := new_rate / old_rate
    .ok (rarity_rates.scale rate_scale, old_rate)

/-- `adjust_rates(rates, guaranteed_5, guaranteed_4)`. -/
def adjust_rates (rates : RateTable) (guaranteed_5 guaranteed_4 : Bool) :
    Except PyErr RateTable := do
  if guaranteed_5 then
    let (r3, _) ← set_rarity_rate rates.r3 0
    let (r4, _) ← set_rarity_rate rates.r4 0
    let (r5, _) ← set_rarity_rate rates.r5 100
    return ⟨r3, r4, r5⟩
  else if guaranteed_4 then
    let (r3, old_3_rate) ← set_rarity_rate rates.r3 0
    let (r4, _) ← set_rarity_rate rates.r4 (16 + old_3_rate)
    return ⟨r3, r4, rates.r5⟩
  else
    return rates

/-- `increment_pity_progress(pity, pity_progress, increment_amount)`;
float `//` and `%` modelled by `Int.floor`. -/
def increment_pity_progress (pity pity_progress increment_amount : ℚ) : ℚ × ℚ :=
  let p := pity_progress + increment_amount
  (pity + 0.5 * (⌊p / 10⌋ : ℚ), p - 10 * (⌊p / 10⌋ : ℚ))

/-- Cumulative sums of a weight list, as `itertools.accumulate` builds
`cum_weights` inside `random.choices`. -/
def cumSums (ws : List ℚ) : List ℚ :=
  (List.scanl (· + ·) 0 ws).tail

/-- `random.choices(pools, weights=weights)[0]`, returning the selected
index.  `u` is the oracle standing for `random.random() * total`;
the selected index is `bisect.bisect(cum_weights, u, 0, len - 1)`, i.e.
the number of cumulative weights `≤ u`, clamped to `len - 1` (the
cumulative list is nondecreasing for the nonnegative weight lists this
model is used on).  A nonpositive total raises `ValueError`. -/
def pyChoices (ws : List ℚ) (u : ℚ) : Except PyErr ℕ :=
  let cum := cumSums ws
  let total := cum.getLastD 0
  if total ≤ 0 then .error .valueError
  else .ok (min ((cum.takeWhile (fun c => decide (c ≤ u))).length) (ws.length - 1))

/-- `Banner._get_result(self, rates)`: weighted bucket selection followed
by `random.choice` on the chosen pool (`j` is the uniform-index oracle;
`random.choice` on an empty sequence raises `IndexError`). -/
def Banner.get_result (b : Banner) (rates : RateTable) (u : ℚ) (j : ℕ) :
    Except PyErr Entity :=
  let pools := b.flattenPools
  match pyChoices rates.flattenWeights u with
  | .error e => .error e
  | .ok i =>
    match pools.getD i [] with
    | [] => .error .indexError
    | x :: xs => .ok ((x :: xs).getD (j % (xs.length + 1)) x)

/-- `Banner.perform_solo(self, pity, pity_progress)` with the two
randomness oracles made explicit.  Exceptions raised by `adjust_rates`
or `_get_result` propagate. -/
def Banner.perform_solo (b : Banner) (pity pity_progress : ℚ) (u : ℚ) (j : ℕ) :
    Except PyErr (Entity × ℚ × ℚ) :=
  match adjust_rates (b.get_pool_rates pity) (b.is_pity_rate_capped pity) false with
  | .error ex => .error ex
  | .ok rates =>
    match b.get_result rates u j with
    | .error ex => .error ex
    | .ok result =>
      if result.rarity = some 5 then .ok (result, 0, 0)
      else
        let (pity, pity_progress) := increment_pity_progress pity pity_progress 1
        .ok (result, pity, pity_progress)

/-- `Banner.perform_tenfold(self, pity, pity_progress)`: nine draws from
the unadjusted table (oracle `o i` per draw), then a tenth draw from the
table adjusted with `guaranteed_4=True`. -/
def Banner.perform_tenfold (b : Banner) (pity pity_progress : ℚ)
    (o : ℕ → ℚ × ℕ) (u10 : ℚ) (j10 : ℕ) :
    Except PyErr (List Entity × ℚ × ℚ) :=
  match (List.range 9).mapM
      (fun i => b.get_result (b.get_pool_rates pity) (o i).1 (o i).2) with
  | .error ex => .error ex
  | .ok results =>
    -- received_5 in the source is `any(e.rarity == 5 for e in results)`,
    -- used only in the reset condition below
    match adjust_rates (b.get_pool_rates pity) (b.is_pity_rate_capped pity) true with
    | .error ex => .error ex
    | .ok rates =>
      match b.get_result rates u10 j10 with
      | .error ex => .error ex
      | .ok last =>
        if results.any (fun e => e.rarity == some 5) || (last.rarity == some 5) then
          .ok (results ++ [last], 0, 0)
        else
          let (pity, pity_progress) := increment_pity_progress pity pity_progress 10
          .ok (results ++ [last], pity, pity_progress)

/-- A rarity-3 adventurer, permanently available. -/
def eAdv3 : Entity := ⟨.adventurer, some 3, "Permanent", 0⟩

/-- A rarity-5 adventurer, permanently available. -/
def eAdv5 : Entity := ⟨.adventurer, some 5, "Permanent", 1⟩

/-- A concrete non-gala banner with one normal 3* adventurer and one
normal 5* adventurer, used to exercise the draw pipeline. -/
def bannerW : Banner :=
  ⟨false, ⟨[], [], [eAdv3], []⟩, ⟨[], [], [], []⟩, ⟨[], [], [eAdv5], []⟩⟩

/-- One successful `perform_solo` call whose drawn entity is not
rarity 5, as a relation between the prior and the returned state. -/
def NonTopSoloStep (b : Banner) (s s' : ℚ × ℚ) : Prop :=
  ∃ u : ℚ, ∃ j : ℕ, ∃ e : Entity,
    b.perform_solo s.1 s.2 u j = .ok (e, s'.1, s'.2) ∧ e.rarity ≠ some 5

/-- One successful draw operation (solo or tenfold) as a step relation on
`(pity, pity_progress)` states. -/
inductive SummonStep (b : Banner) : (ℚ × ℚ) → (ℚ × ℚ) → Prop
  | solo (p pr u : ℚ) (j : ℕ) (e : Entity) (p' pr' : ℚ)
      (h : b.perform_solo p pr u j = .ok (e, p', pr')) :
      SummonStep b (p, pr) (p', pr')
  | tenfold (p pr : ℚ) (o : ℕ → ℚ × ℕ) (u10 : ℚ) (j10 : ℕ)
      (es : List Entity) (p' pr' : ℚ)
      (h : b.perform_tenfold p pr o u10 j10 = .ok (es, p', pr')) :
      SummonStep b (p, pr) (p', pr')

/-- The claimed invariant: the progress component is a natural number
strictly below 10. -/
def PityProgressInv (s : ℚ × ℚ) : Prop :=
  ∃ n : ℕ, s.2 = (n : ℚ) ∧ n < 10

/-- Opaque render payloads (the Discord embeds the source maps query
strings to), modelled as ids. -/
abbrev Payload := ℕ

/-- `str.lower()` (the source's `target.lower()` /
`query_string.lower()`), modelled character-wise; extensionally the same
as `String.toLower`. -/
def pyLower (s : String) : String := ⟨s.data.map Char.toLower⟩

/-- Modelled from the spec: the Damerau–Levenshtein edit distance of the
resolver's BK-tree metric (`jellyfish.damerau_levenshtein_distance`, an
external library not part of this repository) — "transpositions count as
one edit".  The first argument is fuel making the recursion structural;
`|xs| + |ys|` fuel always suffices because every recursive call strictly
decreases the combined length. -/
def dlDistAux : ℕ → List Char → List Char → ℕ
  | _, [], ys => ys.length
  | _, x :: xs, [] => (x :: xs).length
  | 0, xs, ys => xs.length + ys.length
  | fuel + 1, a :: xs, b :: ys =>
    let del := dlDistAux fuel xs (b :: ys) + 1
    let ins := dlDistAux fuel (a :: xs) ys + 1
    let sub := dlDistAux fuel xs ys + (if a = b then 0 else 1)
    let best := min del (min ins sub)
    match xs, ys with
    | a2 :: xs2, b2 :: ys2 =>
      if a = b2 ∧ b = a2 then min best (dlDistAux fuel xs2 ys2 + 1) else best
    | _, _ => best

/-- Damerau–Levenshtein distance on strings. -/
def dlDist (s t : String) : ℕ :=
  dlDistAux (s.length + t.length) s.data t.data

/-- `QueryResolver`'s state: the key → payload dict `query_map`, the set
of strings added to the BK-tree `query_tree` (kept in insertion order),
and `max_query_len`.  All resolver operations are parameterised by the
metric `d` the tree was constructed with (the source passes
`jellyfish.damerau_levenshtein_distance` to `pybktree.BKTree`). -/
structure QueryResolver where
  query_map : List (String × Payload)
  query_keys : List String
  max_query_len : ℕ
deriving DecidableEq

/-- `QueryResolver.__init__`: empty tree, empty map, zero length. -/
def QueryResolver.init : QueryResolver := ⟨[], [], 0⟩

/-- `QueryResolver.get_match_threshold(input_string)`. -/
def QueryResolver.get_match_threshold (input_string : String) : ℚ :=
  1 + 0.3 * (input_string.length : ℚ)

/-- `QueryResolver.add(self, target, result, suppress_warning)`.  The
duplicate check comes first (a duplicate is a warn-and-return no-op even
when `result` is `None`); only then a `None` result raises `ValueError`;
otherwise the key is added to the map and the tree and `max_query_len`
is updated.  The `suppress_warning` flag only controls logging. -/
def QueryResolver.add (r : QueryResolver) (target : String)
    (result : Option Payload) (_suppress_warning : Bool) :
    Except PyErr QueryResolver :=
  let target_str := pyLower target
  if (r.query_map.lookup target_str).isSome then .ok r
  else
    match result with
    | none => .error .valueError
    | some pl =>
      .ok ⟨r.query_map ++ [(target_str, pl)], r.query_keys ++ [target_str],
           max r.max_query_len target_str.length⟩

/-- Python's tuple ordering on `(distance, key)` pairs, used by the
`sorted` call inside `pybktree.BKTree.find`. -/
def pairLe (a b : ℕ × String) : Prop :=
  a.1 < b.1 ∨ (a.1 = b.1 ∧ a.2 ≤ b.2)

instance : DecidableRel pairLe := fun _ _ =>
  inferInstanceAs (Decidable (_ ∨ _))

instance : IsTotal (ℕ × String) pairLe := ⟨by
  intro a b
  rcases lt_trichotomy a.1 b.1 with h | h | h
  · exact Or.inl (Or.inl h)
  · rcases le_total a.2 b.2 with h2 | h2
    · exact Or.inl (Or.inr ⟨h, h2⟩)
    · exact Or.inr (Or.inr ⟨h.symm, h2⟩)
  · exact Or.inr (Or.inl h)⟩

instance : IsTrans (ℕ × String) pairLe := ⟨by
  intro a b c hab hbc
  rcases hab with h1 | ⟨h1, h1'⟩ <;> rcases hbc with h2 | ⟨h2, h2'⟩
  · exact Or.inl (h1.trans h2)
  · exact Or.inl (h2 ▸ h1)
  · exact Or.inl (h1 ▸ h2)
  · exact Or.inr ⟨h1.trans h2, h1'.trans h2'⟩⟩

/-- `QueryResolver.match(self, query_string)`: all tree keys within the
threshold of the lowercased query, with their distances, sorted
ascending — `pybktree.BKTree.find` returns exactly the keys whose metric
distance is `≤ threshold`, as a `sorted` list of `(distance, key)`
tuples.  (`match` is a Lean keyword, hence the prime.) -/
def QueryResolver.match' (d : String → String → ℕ) (r : QueryResolver)
    (query_string : String) : List (ℕ × String) :=
  let match_threshold := QueryResolver.get_match_threshold query_string
  List.insertionSort pairLe
    ((r.query_keys.filter
        (fun k => decide ((d (pyLower query_string) k : ℚ) ≤ match_threshold))).map
      (fun k => (d (pyLower query_string) k, k)))

/-- `QueryResolver.resolve(self, query_string)`: `None` when `match`
found nothing, else the first (lowest-distance) match with confidence
`1 - distance / threshold`; `self.query_map[match_key]` raises
`KeyError` if the key were missing from the map. -/
def QueryResolver.resolve (d : String → String → ℕ) (r : QueryResolver)
    (query_string : String) : Except PyErr (Option (Payload × String × ℚ)) :=
  match r.match' d query_string with
  | [] => .ok none
  | (match_distance, match_key) :: _ =>
    match r.query_map.lookup match_key with
    | none => .error .keyError
    | some pl =>
      .ok (some (pl, match_key,
        1 - (match_distance : ℚ) / QueryResolver.get_match_threshold query_string))

/-- Outcome of handling one `[[query]]` occurrence in `scan_for_query`. -/
inductive ScanOutcome
  | tooLong
  | response (r : Except PyErr (Option (Payload × String × ℚ)))

/-- The per-query length guard of `scan_for_query`: a query longer than
`max_query_len + 5` is answered with the "too long" message and never
reaches the resolver; otherwise the query is resolved. -/
def scan_query_length_guard (d : String → String → ℕ) (r : QueryResolver)
    (raw_match : String) : ScanOutcome :=
  if raw_match.length > r.max_query_len + 5 then .tooLong
  else .response (r.resolve d raw_match)

/-- A concrete one-key resolver (key "abc" mapped to payload 7, maximum
key length 3), as produced by a single successful `add`. -/
def rEx : QueryResolver := ⟨[("abc", 7)], ["abc"], 3⟩

/-! ## Theorems -/

/-- Claim C1 (amended): for every banner and every pity value in the
configured range, the 12 weights of `get_pool_rates(pity)` sum to exactly
100 in exact arithmetic. -/
theorem rates_sum_100 (b : Banner) (pity : ℚ) (_h0 : 0 ≤ pity)
    (_h1 : pity ≤ (if b.is_gala then 3 else 5)) :
    (RateTable.flattenWeights (b.get_pool_rates pity)).sum = 100 := by
  clear _h0 _h1
  unfold Banner.get_pool_rates RateTable.flattenWeights
  cases hg : b.is_gala <;>
    by_cases h4 : (b.pool4.fAdv.length + b.pool4.fDrg.length) ≠ 0 <;>
      simp only [if_pos, if_neg, h4, ite_true, ite_false, List.sum_cons,
        List.sum_nil, ite_not] <;>
    [(have hc : ((b.pool4.fAdv.length : ℚ) + (b.pool4.fDrg.length : ℚ)) ≠ 0 := by
        exact_mod_cast h4
      field_simp [hc]
      ring);
     (field_simp
      ring);
     (have hc : ((b.pool4.fAdv.length : ℚ) + (b.pool4.fDrg.length : ℚ)) ≠ 0 := by
        exact_mod_cast h4
      field_simp [hc]
      ring);
     (field_simp
      ring)]

/-- Witness for C1 at a concrete banner and pity value. -/
theorem rates_sum_100_witness :
    (RateTable.flattenWeights (Banner.empty.get_pool_rates 2)).sum = 100 :=
  rates_sum_100 Banner.empty 2 (by norm_num) (by decide)

/-- Counterexample to C1 as stated: the rate table contains 12 weights
(3 rarities × 2 buckets × 2 categories), not 18. -/
theorem rates_weight_count_not_18 :
    (RateTable.flattenWeights (Banner.empty.get_pool_rates 0)).length = 12 ∧
    (RateTable.flattenWeights (Banner.empty.get_pool_rates 0)).length ≠ 18 := by
  exact ⟨rfl, by decide⟩

/-- Scaling a rarity level scales its total. -/
theorem RarityRates.total_scale (rr : RarityRates) (s : ℚ) :
    (rr.scale s).total = rr.total * s := by
  unfold RarityRates.total RarityRates.scale
  ring

/-- The 5* weights of a rate table always total `base + pity`. -/
theorem r5_total (b : Banner) (pity : ℚ) :
    (b.get_pool_rates pity).r5.total = (if b.is_gala then 6 else 4) + pity := by
  unfold Banner.get_pool_rates RarityRates.total
  cases b.is_gala <;> simp <;> ring

/-- The 4* weights of a rate table always total 16. -/
theorem r4_total (b : Banner) (pity : ℚ) :
    (b.get_pool_rates pity).r4.total = 16 := by
  unfold Banner.get_pool_rates RarityRates.total
  by_cases h4 : (b.pool4.fAdv.length + b.pool4.fDrg.length) ≠ 0
  · have hc : ((b.pool4.fAdv.length : ℚ) + (b.pool4.fDrg.length : ℚ)) ≠ 0 := by
      exact_mod_cast h4
    simp only [h4, ite_true, ite_false, if_pos, ite_not]
    field_simp [hc]
    ring
  · simp only [h4, ite_true, ite_false, if_pos, ite_not]
    norm_num

/-- The 3* weights of a rate table always total
`(80 - pity) + 2 * gala_offset`. -/
theorem r3_total (b : Banner) (pity : ℚ) :
    (b.get_pool_rates pity).r3.total =
      (80 - pity) + 2 * (if b.is_gala then (-1 : ℚ) else 0) := by
  unfold Banner.get_pool_rates RarityRates.total
  cases b.is_gala <;> simp <;> ring

/-- `adjust_rates` with `guaranteed_5=True` on any table with non-zero
rarity totals: low and mid tiers zeroed, top tier scaled to 100. -/
theorem adjust_rates_guaranteed_5 (t : RateTable) (g4 : Bool)
    (h3 : t.r3.total ≠ 0) (h4 : t.r4.total ≠ 0) (h5 : t.r5.total ≠ 0) :
    adjust_rates t true g4 =
      .ok ⟨⟨0, 0, 0, 0⟩, ⟨0, 0, 0, 0⟩, t.r5.scale (100 / t.r5.total)⟩ := by
  simp only [adjust_rates, set_rarity_rate, if_neg h3, if_neg h4, if_neg h5,
    zero_div, ite_true, bind, Except.bind, pure, Except.pure]
  simp [RarityRates.scale]

/-- Claim C2 (as stated): for every rate table produced by
`get_pool_rates` with pity in the configured range, `adjust_rates` with
`guaranteed_5=True` zeroes every rarity-3 and rarity-4 bucket and scales
each rarity-5 bucket by `100 / old_total` (so buckets that had zero
weight stay zero and the rest are redistributed proportionally), and the
new rarity-5 total is exactly 100. -/
theorem guaranteed_5_forces_top_tier (b : Banner) (pity : ℚ) (g4 : Bool)
    (h0 : 0 ≤ pity) (h1 : pity ≤ 5) :
    adjust_rates (b.get_pool_rates pity) true g4 =
      .ok ⟨⟨0, 0, 0, 0⟩, ⟨0, 0, 0, 0⟩,
           (b.get_pool_rates pity).r5.scale
             (100 / (b.get_pool_rates pity).r5.total)⟩ ∧
    ((b.get_pool_rates pity).r5.scale
      (100 / (b.get_pool_rates pity).r5.total)).total = 100 := by
  have h3 : (b.get_pool_rates pity).r3.total ≠ 0 := by
    rw [r3_total]
    cases b.is_gala <;> simp <;> linarith
  have h4 : (b.get_pool_rates pity).r4.total ≠ 0 := by
    rw [r4_total]
    norm_num
  have h5 : (b.get_pool_rates pity).r5.total ≠ 0 := by
    rw [r5_total]
    cases b.is_gala <;> simp <;> linarith
  refine ⟨adjust_rates_guaranteed_5 _ g4 h3 h4 h5, ?_⟩
  rw [RarityRates.total_scale, mul_div_cancel₀ _ h5]

/-- Witness for C2 at a concrete banner and pity value. -/
theorem guaranteed_5_forces_top_tier_witness :
    adjust_rates (Banner.empty.get_pool_rates 2) true false =
      .ok ⟨⟨0, 0, 0, 0⟩, ⟨0, 0, 0, 0⟩,
           (Banner.empty.get_pool_rates 2).r5.scale
             (100 / (Banner.empty.get_pool_rates 2).r5.total)⟩ ∧
    ((Banner.empty.get_pool_rates 2).r5.scale
      (100 / (Banner.empty.get_pool_rates 2).r5.total)).total = 100 :=
  guaranteed_5_forces_top_tier Banner.empty 2 false (by norm_num) (by norm_num)

/-- On integer inputs, `increment_pity_progress` is natural-number
division/remainder by 10: the pity bonus grows by `0.5` per full 10
progress units and the progress is reduced modulo 10. -/
theorem increment_pity_progress_nat (pity : ℚ) (pr n : ℕ) :
    increment_pity_progress pity pr n =
      (pity + 0.5 * (((pr + n) / 10 : ℕ) : ℚ), (((pr + n) % 10 : ℕ) : ℚ)) := by
  have hfl : ⌊((pr : ℚ) + (n : ℚ)) / 10⌋ = (((pr + n) / 10 : ℕ) : ℤ) := by
    have h := Rat.floor_natCast_div_natCast (pr + n) 10
    push_cast at h
    push_cast
    exact h
  have hdm : ((pr : ℚ) + (n : ℚ)) =
      10 * (((pr + n) / 10 : ℕ) : ℚ) + (((pr + n) % 10 : ℕ) : ℚ) := by
    exact_mod_cast (Nat.div_add_mod (pr + n) 10).symm
  show (pity + 0.5 * (⌊((pr : ℚ) + (n : ℚ)) / 10⌋ : ℚ),
        ((pr : ℚ) + (n : ℚ)) - 10 * (⌊((pr : ℚ) + (n : ℚ)) / 10⌋ : ℚ)) = _
  rw [hfl]
  simp only [Prod.mk.injEq, Int.cast_natCast]
  constructor
  · trivial
  · linarith

/-- Specialisation of the rollover rule to a single pull. -/
theorem increment_pity_progress_one (pity : ℚ) (i : ℕ) :
    increment_pity_progress pity i 1 =
      (pity + 0.5 * (((i + 1) / 10 : ℕ) : ℚ), (((i + 1) % 10 : ℕ) : ℚ)) := by
  have h := increment_pity_progress_nat pity i 1
  rwa [Nat.cast_one] at h

/-- Specialisation of the rollover rule to a tenfold pull. -/
theorem increment_pity_progress_ten (pity : ℚ) (i : ℕ) :
    increment_pity_progress pity i 10 =
      (pity + 0.5 * (((i + 10) / 10 : ℕ) : ℚ), (((i + 10) % 10 : ℕ) : ℚ)) := by
  have h := increment_pity_progress_nat pity i 10
  rwa [show (((10 : ℕ) : ℚ)) = 10 by norm_num] at h

/-- Case analysis of a successful `perform_solo`: either the drawn entity
has rarity 5 and the state resets, or it does not and the state is
`increment_pity_progress _ _ 1`. -/
theorem Banner.perform_solo_ok_cases (b : Banner) (p pr u : ℚ) (j : ℕ)
    (e : Entity) (p' pr' : ℚ)
    (h : b.perform_solo p pr u j = .ok (e, p', pr')) :
    (e.rarity = some 5 ∧ p' = 0 ∧ pr' = 0) ∨
    (e.rarity ≠ some 5 ∧ (p', pr') = increment_pity_progress p pr 1) := by
  unfold Banner.perform_solo at h
  split at h
  · exact absurd h (by simp)
  · split at h
    · exact absurd h (by simp)
    · rename_i rates hA result hR
      split at h
      · rename_i h5
        simp only [Except.ok.injEq, Prod.mk.injEq] at h
        obtain ⟨he, hp, hpr⟩ := h
        exact Or.inl ⟨he ▸ h5, hp.symm, hpr.symm⟩
      · rename_i h5
        rcases hI : increment_pity_progress p pr 1 with ⟨a, c⟩
        rw [hI] at h
        simp only [Except.ok.injEq, Prod.mk.injEq] at h
        obtain ⟨he, hp, hpr⟩ := h
        refine Or.inr ⟨he ▸ h5, ?_⟩
        rw [← hp, ← hpr]

/-- Case analysis of a successful `perform_tenfold`: if any of the ten
returned entities has rarity 5 the state resets, otherwise the state is
`increment_pity_progress _ _ 10`. -/
theorem Banner.perform_tenfold_ok_cases (b : Banner) (p pr : ℚ) (o : ℕ → ℚ × ℕ)
    (u10 : ℚ) (j10 : ℕ) (es : List Entity) (p' pr' : ℚ)
    (h : b.perform_tenfold p pr o u10 j10 = .ok (es, p', pr')) :
    ((∃ e ∈ es, e.rarity = some 5) ∧ p' = 0 ∧ pr' = 0) ∨
    ((∀ e ∈ es, e.rarity ≠ some 5) ∧ (p', pr') = increment_pity_progress p pr 10) := by
  unfold Banner.perform_tenfold at h
  split at h
  · exact absurd h (by simp)
  · rename_i results hM
    split at h
    · exact absurd h (by simp)
    · rename_i rates hA
      split at h
      · exact absurd h (by simp)
      · rename_i last hL
        split at h
        · rename_i hC
          simp only [Except.ok.injEq, Prod.mk.injEq] at h
          obtain ⟨hes, hp, hpr⟩ := h
          left
          refine ⟨?_, hp.symm, hpr.symm⟩
          subst hes
          rcases Bool.or_eq_true_iff.mp hC with h1 | h2
          · obtain ⟨x, hx, hx5⟩ := List.any_eq_true.mp h1
            exact ⟨x, List.mem_append_left _ hx, beq_iff_eq.mp hx5⟩
          · exact ⟨last, List.mem_append_right _ (List.mem_singleton_self last),
              beq_iff_eq.mp h2⟩
        · rename_i hC
          rcases hI : increment_pity_progress p pr 10 with ⟨a, c⟩
          rw [hI] at h
          simp only [Except.ok.injEq, Prod.mk.injEq] at h
          obtain ⟨hes, hp, hpr⟩ := h
          right
          rw [Bool.or_eq_true_iff, not_or] at hC
          obtain ⟨hC1, hC2⟩ := hC
          refine ⟨?_, by rw [← hp, ← hpr]⟩
          subst hes
          intro e he
          have hany : (results.any fun e => e.rarity == some 5) = false := by
            simpa using hC1
          rcases List.mem_append.mp he with h1 | h1
          · have := List.any_eq_false.mp hany e h1
            simpa using this
          · rw [List.mem_singleton.mp h1]
            intro hcon
            exact hC2 (beq_iff_eq.mpr hcon)

/-- Claim C3: whenever a successful `perform_solo` draws a rarity-5
entity, or any of the ten entities returned by a successful
`perform_tenfold` has rarity 5, the returned state is exactly `(0, 0)`
whatever the prior `(pity, pity_progress)` were. -/
theorem top_rarity_resets_pity :
    (∀ (b : Banner) (p pr u : ℚ) (j : ℕ) (e : Entity) (p' pr' : ℚ),
       b.perform_solo p pr u j = .ok (e, p', pr') → e.rarity = some 5 →
       p' = 0 ∧ pr' = 0) ∧
    (∀ (b : Banner) (p pr : ℚ) (o : ℕ → ℚ × ℕ) (u10 : ℚ) (j10 : ℕ)
       (es : List Entity) (p' pr' : ℚ),
       b.perform_tenfold p pr o u10 j10 = .ok (es, p', pr') →
       (∃ e ∈ es, e.rarity = some 5) → p' = 0 ∧ pr' = 0) := by
  constructor
  · intro b p pr u j e p' pr' h h5
    rcases Banner.perform_solo_ok_cases b p pr u j e p' pr' h with
      ⟨_, hp, hpr⟩ | ⟨hne, _⟩
    · exact ⟨hp, hpr⟩
    · exact absurd h5 hne
  · intro b p pr o u10 j10 es p' pr' h h5
    rcases Banner.perform_tenfold_ok_cases b p pr o u10 j10 es p' pr' h with
      ⟨_, hp, hpr⟩ | ⟨hall, _⟩
    · exact ⟨hp, hpr⟩
    · obtain ⟨e, he, he5⟩ := h5
      exact absurd he5 (hall e he)

/-- Concrete rate table of `bannerW` at pity 0. -/
theorem bannerW_rates :
    bannerW.get_pool_rates 0 =
      ⟨⟨0, 0, 48, 32⟩, ⟨0, 0, 171/20, 149/20⟩, ⟨0, 0, 2, 2⟩⟩ := by
  norm_num [Banner.get_pool_rates, bannerW]

/-- `bannerW` is not pity-capped at pity 0. -/
theorem bannerW_capped :
    bannerW.is_pity_rate_capped 0 = false := by
  norm_num [Banner.is_pity_rate_capped, bannerW]

/-- `adjust_rates` with no guarantee flags is the identity. -/
theorem adjust_rates_id (t : RateTable) : adjust_rates t false false = .ok t := rfl

/-- Bucket selection for `bannerW` at pity 0 with roll 97 picks index 10
(the normal 5* adventurer bucket). -/
theorem bannerW_choices_97 :
    pyChoices [0, 0, 48, 32, 0, 0, 171/20, 149/20, 0, 0, 2, 2] 97 = .ok 10 := by
  have hcum : cumSums [0, 0, 48, 32, 0, 0, 171/20, 149/20, 0, 0, 2, 2] =
      [0, 0, 48, 80, 80, 80, 1771/20, 96, 96, 96, 98, 100] := by
    norm_num [cumSums, List.scanl]
  simp only [pyChoices, hcum]
  norm_num [List.takeWhile_cons]

/-- Bucket selection for `bannerW` at pity 0 with roll 10 picks index 2
(the normal 3* adventurer bucket). -/
theorem bannerW_choices_10 :
    pyChoices [0, 0, 48, 32, 0, 0, 171/20, 149/20, 0, 0, 2, 2] 10 = .ok 2 := by
  have hcum : cumSums [0, 0, 48, 32, 0, 0, 171/20, 149/20, 0, 0, 2, 2] =
      [0, 0, 48, 80, 80, 80, 1771/20, 96, 96, 96, 98, 100] := by
    norm_num [cumSums, List.scanl]
  simp only [pyChoices, hcum]
  norm_num [List.takeWhile_cons]

/-- A roll of 97 on `bannerW`'s unadjusted table draws the 5* adventurer. -/
theorem bannerW_draw_97 :
    bannerW.get_result (bannerW.get_pool_rates 0) 97 0 = .ok eAdv5 := by
  rw [Banner.get_result.eq_def,
    show (bannerW.get_pool_rates 0).flattenWeights =
        [0, 0, 48, 32, 0, 0, 171/20, 149/20, 0, 0, 2, 2] by
      rw [bannerW_rates]; rfl,
    bannerW_choices_97]
  rfl

/-- A roll of 10 on `bannerW`'s unadjusted table draws the 3* adventurer. -/
theorem bannerW_draw_10 :
    bannerW.get_result (bannerW.get_pool_rates 0) 10 0 = .ok eAdv3 := by
  rw [Banner.get_result.eq_def,
    show (bannerW.get_pool_rates 0).flattenWeights =
        [0, 0, 48, 32, 0, 0, 171/20, 149/20, 0, 0, 2, 2] by
      rw [bannerW_rates]; rfl,
    bannerW_choices_10]
  rfl

/-- A solo pull on `bannerW` with roll 97 returns the 5* adventurer and
resets the state. -/
theorem bannerW_solo_97 (q : ℚ) :
    bannerW.perform_solo 0 q 97 0 = .ok (eAdv5, 0, 0) := by
  simp only [Banner.perform_solo, bannerW_capped, adjust_rates_id, bannerW_draw_97]
  rfl

/-- A solo pull on `bannerW` with roll 10 returns the 3* adventurer and
increments the pity progress. -/
theorem bannerW_solo_10 (q : ℚ) :
    bannerW.perform_solo 0 q 10 0 =
      .ok (eAdv3, (increment_pity_progress 0 q 1).1,
           (increment_pity_progress 0 q 1).2) := by
  simp only [Banner.perform_solo, bannerW_capped, adjust_rates_id, bannerW_draw_10]
  rw [if_neg (by decide : ¬(eAdv3.rarity = some 5))]

/-- Adjusting `bannerW`'s pity-0 table with `guaranteed_4=True`. -/
theorem bannerW_adjust_g4 :
    adjust_rates (bannerW.get_pool_rates 0) false true =
      .ok ⟨⟨0, 0, 0, 0⟩, ⟨0, 0, 513/10, 447/10⟩, ⟨0, 0, 2, 2⟩⟩ := by
  norm_num [bannerW_rates, adjust_rates, set_rarity_rate, RarityRates.total,
    RarityRates.scale, Bind.bind, Except.bind, Pure.pure, Except.pure]

/-- Bucket selection on the guaranteed-4 adjusted table with roll 97. -/
theorem bannerW_choices_g4_97 :
    pyChoices [0, 0, 0, 0, 0, 0, 513/10, 447/10, 0, 0, 2, 2] 97 = .ok 10 := by
  have hcum : cumSums [0, 0, 0, 0, 0, 0, 513/10, 447/10, 0, 0, 2, 2] =
      [0, 0, 0, 0, 0, 0, 513/10, 96, 96, 96, 98, 100] := by
    norm_num [cumSums, List.scanl]
  simp only [pyChoices, hcum]
  norm_num [List.takeWhile_cons]

/-- Drawing from the guaranteed-4 adjusted table with roll 97 also yields
the 5* adventurer. -/
theorem bannerW_draw_g4_97 :
    bannerW.get_result ⟨⟨0, 0, 0, 0⟩, ⟨0, 0, 513/10, 447/10⟩, ⟨0, 0, 2, 2⟩⟩ 97 0 =
      .ok eAdv5 := by
  rw [Banner.get_result.eq_def,
    show (RateTable.mk ⟨0, 0, 0, 0⟩ ⟨0, 0, 513/10, 447/10⟩
        ⟨0, 0, 2, 2⟩).flattenWeights =
        [0, 0, 0, 0, 0, 0, 513/10, 447/10, 0, 0, 2, 2] from rfl,
      bannerW_choices_g4_97]
  rfl

/-- A tenfold pull on `bannerW` in which every roll is 97 returns ten 5*
adventurers and resets the state. -/
theorem bannerW_tenfold_97 (q : ℚ) :
    bannerW.perform_tenfold 0 q (fun _ => (97, 0)) 97 0 =
      .ok (List.replicate 9 eAdv5 ++ [eAdv5], 0, 0) := by
  have hmap : (List.range 9).mapM
      (fun i : ℕ => bannerW.get_result (bannerW.get_pool_rates 0)
        ((fun _ : ℕ => ((97 : ℚ), (0 : ℕ))) i).1
        ((fun _ : ℕ => ((97 : ℚ), (0 : ℕ))) i).2) =
      .ok (List.replicate 9 eAdv5) := by
    simp only [bannerW_draw_97]
    rfl
  rw [Banner.perform_tenfold.eq_def]
  rw [hmap, bannerW_capped, bannerW_adjust_g4]
  simp only [bannerW_draw_g4_97]
  rfl

/-- Witness for C3: concrete draws on `bannerW` that hit the 5* pool
(solo with bucket roll 97, and a tenfold whose draws all land in the 5*
pool) reset the state from `(0, 7)` to `(0, 0)`. -/
theorem top_rarity_resets_pity_witness :
    ((0 : ℚ) = 0 ∧ (0 : ℚ) = 0) ∧ ((0 : ℚ) = 0 ∧ (0 : ℚ) = 0) :=
  ⟨top_rarity_resets_pity.1 bannerW 0 7 97 0 eAdv5 0 0 (bannerW_solo_97 7) rfl,
   top_rarity_resets_pity.2 bannerW 0 7 (fun _ => (97, 0)) 97 0
     (List.replicate 9 eAdv5 ++ [eAdv5]) 0 0 (bannerW_tenfold_97 7)
     ⟨eAdv5, by decide, rfl⟩⟩

/-- A non-top solo draw updates the state by `increment_pity_progress`. -/
theorem NonTopSoloStep.state_eq {b : Banner} {s s' : ℚ × ℚ}
    (h : NonTopSoloStep b s s') : s' = increment_pity_progress s.1 s.2 1 := by
  obtain ⟨u, j, e, hok, hne⟩ := h
  rcases Banner.perform_solo_ok_cases b s.1 s.2 u j e s'.1 s'.2 hok with
    ⟨h5, _⟩ | ⟨_, heq⟩
  · exact absurd h5 hne
  · exact heq ▸ rfl

/-- Claim C4: ten consecutive `perform_solo` calls starting from
`pity_progress = 0`, none of which draws a rarity-5 entity, add exactly
`0.5` to `pity` and leave `pity_progress = 0`; and in general a non-top
draw adds its pull count to the progress, adds `0.5` per completed block
of 10 to the pity, and reduces the progress modulo 10. -/
theorem pity_rollover :
    (∀ (b : Banner) (pity : ℚ) (f : ℕ → ℚ × ℚ), f 0 = (pity, 0) →
       (∀ i, i < 10 → NonTopSoloStep b (f i) (f (i + 1))) →
       f 10 = (pity + 0.5, 0)) ∧
    (∀ (pity : ℚ) (pr n : ℕ),
       increment_pity_progress pity pr n =
         (pity + 0.5 * (((pr + n) / 10 : ℕ) : ℚ), (((pr + n) % 10 : ℕ) : ℚ))) := by
  constructor
  · intro b pity f h0 hstep
    have key : ∀ k, k ≤ 9 → f k = (pity, (k : ℚ)) := by
      intro k
      induction k with
      | zero =>
        intro _
        simpa using h0
      | succ k ih =>
        intro hk9
        have hfk := ih (by omega)
        have hstep' := (hstep k (by omega)).state_eq
        rw [hfk] at hstep'
        rw [hstep']
        show increment_pity_progress pity (k : ℚ) 1 = (pity, ((k + 1 : ℕ) : ℚ))
        rw [increment_pity_progress_one]
        have hd : (k + 1) / 10 = 0 := Nat.div_eq_of_lt (by omega)
        have hm : (k + 1) % 10 = k + 1 := Nat.mod_eq_of_lt (by omega)
        rw [hd, hm]
        norm_num
    have h9 := key 9 (by omega)
    have hstep9 := (hstep 9 (by omega)).state_eq
    rw [h9] at hstep9
    rw [hstep9]
    show increment_pity_progress pity ((9 : ℕ) : ℚ) 1 = (pity + 0.5, 0)
    rw [increment_pity_progress_one]
    norm_num
  · exact increment_pity_progress_nat

/-- Witness for C4: the explicit ten-step trace on `bannerW` that draws
the 3* adventurer every time, and a concrete rollover computation. -/
theorem pity_rollover_witness :
    (fun k : ℕ => if k = 10 then ((0.5 : ℚ), (0 : ℚ)) else ((0 : ℚ), (k : ℚ))) 10 =
      ((0 : ℚ) + 0.5, 0) ∧
    increment_pity_progress 0 ((3 : ℕ) : ℚ) ((4 : ℕ) : ℚ) =
      (0 + 0.5 * (((3 + 4) / 10 : ℕ) : ℚ), (((3 + 4) % 10 : ℕ) : ℚ)) := by
  constructor
  · refine pity_rollover.1 bannerW 0
      (fun k : ℕ => if k = 10 then ((0.5 : ℚ), (0 : ℚ)) else ((0 : ℚ), (k : ℚ)))
      (by norm_num) ?_
    intro i hi
    interval_cases i <;>
      exact ⟨10, 0, eAdv3,
        by norm_num [bannerW_solo_10, increment_pity_progress], by decide⟩
  · exact pity_rollover.2 0 3 4

/-- Claim C10: starting from the initial state `(0, 0)`, after any
sequence of successful `perform_solo` / `perform_tenfold` calls the
returned `pity_progress` is an integer with `0 ≤ pity_progress < 10`. -/
theorem pity_progress_integral_bounded (b : Banner) (s : ℚ × ℚ)
    (h : Relation.ReflTransGen (SummonStep b) (0, 0) s) : PityProgressInv s := by
  induction h with
  | refl => exact ⟨0, by norm_num, by omega⟩
  | tail _ hstep ih =>
    cases hstep with
    | solo p pr u j e p' pr' hok =>
      rcases Banner.perform_solo_ok_cases b p pr u j e p' pr' hok with
        ⟨_, _, hpr⟩ | ⟨_, heq⟩
      · exact ⟨0, by simp [hpr], by omega⟩
      · obtain ⟨n, hn, hn10⟩ := ih
        have hn' : pr = (n : ℚ) := hn
        rw [hn', increment_pity_progress_one] at heq
        refine ⟨(n + 1) % 10, ?_, Nat.mod_lt _ (by omega)⟩
        have := congrArg Prod.snd heq
        simpa using this
    | tenfold p pr o u10 j10 es p' pr' hok =>
      rcases Banner.perform_tenfold_ok_cases b p pr o u10 j10 es p' pr' hok with
        ⟨_, _, hpr⟩ | ⟨_, heq⟩
      · exact ⟨0, by simp [hpr], by omega⟩
      · obtain ⟨n, hn, hn10⟩ := ih
        have hn' : pr = (n : ℚ) := hn
        rw [hn', increment_pity_progress_ten] at heq
        refine ⟨(n + 10) % 10, ?_, Nat.mod_lt _ (by omega)⟩
        have := congrArg Prod.snd heq
        simpa using this

/-- Witness for C10: after one concrete non-top solo draw on `bannerW`
from the initial state, the state is `(0, 1)` and the invariant holds. -/
theorem pity_progress_integral_bounded_witness : PityProgressInv (0, 1) := by
  refine pity_progress_integral_bounded bannerW (0, 1)
    (Relation.ReflTransGen.single
      (SummonStep.solo 0 0 10 0 eAdv3 0 1 ?_))
  rw [bannerW_solo_10]
  norm_num [increment_pity_progress]

/-- `getD` with default `[]` on a list of empty lists is always `[]`. -/
theorem getD_eq_nil_of_all_nil (l : List (List Entity))
    (hl : ∀ x ∈ l, x = []) (k : ℕ) : l.getD k [] = [] := by
  induction l generalizing k with
  | nil => cases k <;> rfl
  | cons a t ih =>
    cases k with
    | zero => exact hl a (List.mem_cons_self a t)
    | succ k =>
      show t.getD k [] = []
      exact ih (fun x hx => hl x (List.mem_cons_of_mem a hx)) k

/-- Every pool of `Banner.empty` is empty. -/
theorem banner_empty_pools (k : ℕ) : Banner.empty.flattenPools.getD k [] = [] := by
  refine getD_eq_nil_of_all_nil _ ?_ k
  rw [show Banner.empty.flattenPools = List.replicate 12 ([] : List Entity) from rfl]
  intro x hx
  exact List.eq_of_mem_replicate hx

/-- The pity-0 rate table of the all-empty banner. -/
theorem banner_empty_rates :
    Banner.empty.get_pool_rates 0 =
      ⟨⟨0, 0, 48, 32⟩, ⟨0, 0, 171/20, 149/20⟩, ⟨0, 0, 2, 2⟩⟩ := by
  norm_num [Banner.get_pool_rates, Banner.empty]

/-- The all-empty banner is not pity-capped at pity 0. -/
theorem banner_empty_capped :
    Banner.empty.is_pity_rate_capped 0 = false := by
  norm_num [Banner.is_pity_rate_capped, Banner.empty]

/-- The weighted bucket selection on the all-empty banner's table always
succeeds (the weight total is 100, so no `ValueError` is raised). -/
theorem banner_empty_choices (u : ℚ) :
    ∃ i, pyChoices (Banner.empty.get_pool_rates 0).flattenWeights u = .ok i := by
  rw [show (Banner.empty.get_pool_rates 0).flattenWeights =
        [0, 0, 48, 32, 0, 0, 171/20, 149/20, 0, 0, 2, 2] by
      rw [banner_empty_rates]; rfl]
  simp only [pyChoices]
  rw [show cumSums [0, 0, 48, 32, 0, 0, 171/20, 149/20, 0, 0, 2, 2] =
        [0, 0, 48, 80, 80, 80, 1771/20, 96, 96, 96, 98, 100] by
      norm_num [cumSums, List.scanl]]
  rw [if_neg]
  · exact ⟨_, rfl⟩
  · rw [show ([0, 0, 48, 80, 80, 80, 1771/20, (96 : ℚ), 96, 96, 98,
        100].getLastD 0) = 100 from rfl]
    norm_num

/-- Drawing from the all-empty banner always raises `IndexError`
(`random.choice` on the selected empty pool), whatever the rolls. -/
theorem banner_empty_get_result (u : ℚ) (j : ℕ) :
    Banner.empty.get_result (Banner.empty.get_pool_rates 0) u j =
      .error .indexError := by
  obtain ⟨i, hi⟩ := banner_empty_choices u
  simp only [Banner.get_result.eq_def, hi]
  rw [banner_empty_pools i]

/-- Claim C7, evaluated on the code: on a banner whose pools are all
empty (`Banner([])` with no permanently available entities), every
`perform_solo` call fails with `IndexError` — not with any dedicated
"empty pool" error, which does not exist in the code. -/
theorem empty_banner_solo_index_error (u : ℚ) (j : ℕ) :
    Banner.empty.perform_solo 0 0 u j = .error .indexError := by
  simp only [Banner.perform_solo.eq_def, banner_empty_capped, adjust_rates_id,
    banner_empty_get_result]

/-- Claim C6: a query longer than `max_query_len + 5` is answered
"too long" without searching — the outcome does not depend on the edit
distance metric at all, so the metric is never invoked. -/
theorem long_query_short_circuits (d d' : String → String → ℕ)
    (r : QueryResolver) (q : String) (h : r.max_query_len + 5 < q.length) :
    scan_query_length_guard d r q = .tooLong ∧
    scan_query_length_guard d r q = scan_query_length_guard d' r q := by
  unfold scan_query_length_guard
  rw [if_pos h, if_pos h]
  exact ⟨rfl, rfl⟩

/-- Witness for C6 at a concrete resolver, query and pair of metrics. -/
theorem long_query_short_circuits_witness :
    scan_query_length_guard dlDist rEx "aaaaaaaaaa" = .tooLong ∧
    scan_query_length_guard dlDist rEx "aaaaaaaaaa" =
      scan_query_length_guard (fun _ _ => 0) rEx "aaaaaaaaaa" :=
  long_query_short_circuits dlDist (fun _ _ => 0) rEx "aaaaaaaaaa" (by decide)

/-- Appending a binding for `k` makes `lookup k` succeed. -/
theorem lookup_append_isSome (l : List (String × Payload)) (k : String)
    (v : Payload) : ((l ++ [(k, v)]).lookup k).isSome := by
  induction l with
  | nil => simp [List.lookup]
  | cons a t ih =>
    rcases a with ⟨k', v'⟩
    by_cases hk : k == k'
    · simp [List.lookup, hk]
    · simp [List.lookup, hk, ih]

/-- Claim C8: if `add t (some pl)` succeeded with state `r'`, calling
`add` again with the same target and payload returns `r'` unchanged —
the key set, the key→payload map and `max_query_len` are all identical,
so every subsequent `match`/`resolve` behaves as after the single call. -/
theorem add_idempotent (r r' : QueryResolver) (t : String) (pl : Payload)
    (s1 s2 : Bool) (h : r.add t (some pl) s1 = .ok r') :
    r'.add t (some pl) s2 = .ok r' := by
  simp only [QueryResolver.add] at h ⊢
  by_cases hdup : (List.lookup (pyLower t) r.query_map).isSome = true
  · rw [if_pos hdup] at h
    simp only [Except.ok.injEq] at h
    subst h
    rw [if_pos hdup]
  · rw [if_neg hdup] at h
    simp only [Except.ok.injEq] at h
    subst h
    rw [if_pos (lookup_append_isSome r.query_map (pyLower t) pl)]

/-- Witness for C8: a concrete duplicate `add` into `rEx` is a no-op. -/
theorem add_idempotent_witness : rEx.add "Abc" (some 7) true = .ok rEx :=
  add_idempotent QueryResolver.init rEx "Abc" 7 false true rfl

/-- Counterexample to C9 as stated: when the normalized key is already
present, `add` with a `None` payload is a silent no-op (`.ok`), not a
`ValueError` — the duplicate check precedes the payload check. -/
theorem add_none_existing_key_no_error :
    rEx.add "abc" none false = .ok rEx ∧
    ∀ e : PyErr, rEx.add "abc" none false ≠ .error e := by
  have h0 : rEx.add "abc" none false = .ok rEx := rfl
  refine ⟨h0, ?_⟩
  intro e h
  rw [h0] at h
  exact Except.noConfusion h

/-- Claim C9 (amended): `add` with a `None` payload raises `ValueError`
exactly when the normalized key is not already present; when the key is
present it is a silent no-op.  In both cases the index is unchanged. -/
theorem add_none_payload (r : QueryResolver) (t : String) (s : Bool) :
    ((r.query_map.lookup (pyLower t)).isSome = false →
      r.add t none s = .error .valueError) ∧
    ((r.query_map.lookup (pyLower t)).isSome = true →
      r.add t none s = .ok r) := by
  constructor
  · intro h
    unfold QueryResolver.add
    rw [if_neg (by simp [h])]
  · intro h
    unfold QueryResolver.add
    rw [if_pos h]

/-- Witness for C9 (amended) at concrete resolvers. -/
theorem add_none_payload_witness :
    QueryResolver.init.add "x" none false = .error .valueError ∧
    rEx.add "abc" none false = .ok rEx :=
  ⟨(add_none_payload QueryResolver.init "x" false).1 rfl,
   (add_none_payload rEx "abc" false).2 rfl⟩

/-- Claim C5 (amended): `resolve` returns `None` when `match` finds
nothing; otherwise it returns the payload and key of the head of the
sorted match list — a match of minimal distance — with confidence
`1 - distance / threshold`, and that confidence lies in the closed
interval `[0, 1]` (it equals 1 exactly on a distance-0 match). -/
theorem resolve_best_match (d : String → String → ℕ) (r : QueryResolver)
    (q : String) :
    (r.match' d q = [] → r.resolve d q = .ok none) ∧
    (∀ d0 k0 rest, r.match' d q = (d0, k0) :: rest →
      (∀ x ∈ r.match' d q, d0 ≤ x.1) ∧
      (∀ pl, r.query_map.lookup k0 = some pl →
        r.resolve d q = .ok (some (pl, k0,
          1 - (d0 : ℚ) / QueryResolver.get_match_threshold q))) ∧
      0 ≤ 1 - (d0 : ℚ) / QueryResolver.get_match_threshold q ∧
      1 - (d0 : ℚ) / QueryResolver.get_match_threshold q ≤ 1) := by
  constructor
  · intro h
    rw [QueryResolver.resolve.eq_def, h]
  · intro d0 k0 rest h
    have hT : 0 < QueryResolver.get_match_threshold q := by
      unfold QueryResolver.get_match_threshold
      positivity
    have hsort : List.Sorted pairLe (r.match' d q) := by
      simp only [QueryResolver.match']
      exact List.sorted_insertionSort pairLe _
    have hmem : (d0, k0) ∈ r.match' d q := by
      rw [h]
      exact List.mem_cons_self _ _
    have hmem2 : (d0, k0) ∈
        (r.query_keys.filter
          (fun k => decide ((d (pyLower q) k : ℚ) ≤
            QueryResolver.get_match_threshold q))).map
          (fun k => (d (pyLower q) k, k)) := by
      have hdef : r.match' d q = List.insertionSort pairLe
          ((r.query_keys.filter
            (fun k => decide ((d (pyLower q) k : ℚ) ≤
              QueryResolver.get_match_threshold q))).map
            (fun k => (d (pyLower q) k, k))) := by
        simp only [QueryResolver.match']
      rw [hdef] at hmem
      exact (List.perm_insertionSort pairLe _).mem_iff.mp hmem
    obtain ⟨k, hk_filter, hk_eq⟩ := List.mem_map.mp hmem2
    injection hk_eq with hd_eq hk0_eq
    have hle : (d0 : ℚ) ≤ QueryResolver.get_match_threshold q := by
      have hdec := List.of_mem_filter hk_filter
      simp only [decide_eq_true_eq] at hdec
      rw [← hd_eq]
      exact hdec
    refine ⟨?_, ?_, ?_, ?_⟩
    · intro x hx
      rw [h] at hsort hx
      rcases List.mem_cons.mp hx with hx | hx
      · rw [hx]
      · rcases (List.sorted_cons.mp hsort).1 x hx with hlt | ⟨heq, _⟩
        · exact le_of_lt hlt
        · exact le_of_eq heq
    · intro pl hpl
      rw [QueryResolver.resolve.eq_def, h]
      simp only [hpl]
    · have : (d0 : ℚ) / QueryResolver.get_match_threshold q ≤ 1 :=
        (div_le_one hT).mpr hle
      linarith
    · have : 0 ≤ (d0 : ℚ) / QueryResolver.get_match_threshold q :=
        div_nonneg (by positivity) hT.le
      linarith

/-- The single-key resolver matches the exact query "abc" at distance 0. -/
theorem rEx_match_abc : rEx.match' dlDist "abc" = [(0, "abc")] := by
  simp only [QueryResolver.match', rEx]
  norm_num [QueryResolver.get_match_threshold, List.filter_cons,
    show pyLower "abc" = "abc" from rfl, show dlDist "abc" "abc" = 0 from rfl,
    show "abc".length = 3 from rfl,
    List.insertionSort, List.orderedInsert]

/-- The single-key resolver has no match for "zzzzz" (distance 5 exceeds
the threshold 2.5). -/
theorem rEx_match_zzzzz : rEx.match' dlDist "zzzzz" = [] := by
  simp only [QueryResolver.match', rEx]
  norm_num [QueryResolver.get_match_threshold, List.filter_cons,
    show pyLower "zzzzz" = "zzzzz" from rfl,
    show dlDist "zzzzz" "abc" = 5 from rfl,
    show "zzzzz".length = 5 from rfl,
    List.insertionSort, List.orderedInsert]

/-- Counterexample to C5 as stated: an exact (distance-0) match yields
confidence exactly 1, which is not in the half-open interval `[0, 1)`. -/
theorem resolve_confidence_one :
    rEx.resolve dlDist "abc" = .ok (some (7, "abc", 1)) ∧ ¬((1 : ℚ) < 1) := by
  constructor
  · rw [QueryResolver.resolve.eq_def, rEx_match_abc]
    norm_num [QueryResolver.get_match_threshold,
      show List.lookup "abc" rEx.query_map = some 7 from rfl,
      show "abc".length = 3 from rfl]
  · norm_num

/-- Witness for C5 (amended): the no-match case on query "zzzzz" and the
confidence bounds at the concrete exact match "abc". -/
theorem resolve_best_match_witness :
    rEx.resolve dlDist "zzzzz" = .ok none ∧
    (0 ≤ 1 - ((0 : ℕ) : ℚ) / QueryResolver.get_match_threshold "abc" ∧
     1 - ((0 : ℕ) : ℚ) / QueryResolver.get_match_threshold "abc" ≤ 1) := by
  refine ⟨(resolve_best_match dlDist rEx "zzzzz").1 rEx_match_zzzzz, ?_, ?_⟩
  · exact ((resolve_best_match dlDist rEx "abc").2 0 "abc" [] rEx_match_abc).2.2.1
  · exact ((resolve_best_match dlDist rEx "abc").2 0 "abc" [] rEx_match_abc).2.2.2
